import Mathlib

/-!
# Verification of kdex-tech/knative-deployer

Shallow embedding of the deployer's pure decision logic, translated from the
two Go source files of the repository:

* `src/cmd/main.go` — the primary variant (with `FUNCTION_BASEPATH` and the
  eleven scaling knobs);
* `src/unnamed/part_000` — the near-duplicate variant (no base path, no
  scaling knobs, hard-coded `minScale` template annotation map entry).

Definitions suffixed `V0` embed the `part_000` variant; unsuffixed
definitions embed `src/cmd/main.go`.  Both variants share an identical
`parseKnativeStatus` and `waitForReady`, which are therefore embedded once.
-/

/-! ## Status documents (input of `parseKnativeStatus`)

A Knative Service object is read through `unstructured.NestedMap` /
`NestedString` / `NestedSlice`.  The parts `parseKnativeStatus` inspects are:
an optional `status` map, inside it an optional `url` string and an optional
`conditions` slice whose entries are either maps with optional `type`,
`status`, `message` string fields, or malformed entries (non-maps), which the
loop at `src/cmd/main.go:401-412` skips. -/

/-- One well-formed entry of the `conditions` slice.  Absent fields are
`none`; Go reads them as the `nil` interface value. -/
structure Condition where
  type : Option String
  status : Option String
  message : Option String
deriving DecidableEq, Repr

/-- An entry of the `conditions` slice: either a map (well-formed) or any
other value, which the type assertion `c.(map[string]any)` rejects and the
loop skips. -/
inductive CondEntry where
  | malformed
  | cond (c : Condition)
deriving DecidableEq, Repr

/-- The `status` sub-map of the object: optional `url`, optional
`conditions` slice. -/
structure StatusBlock where
  url : Option String
  conditions : Option (List CondEntry)
deriving DecidableEq, Repr

/-- The object passed to `parseKnativeStatus`: only its optional `status`
block is read.  A missing or malformed `status` map (NestedMap `!found` or
`err`) is collapsed into `none`. -/
structure KObj where
  status : Option StatusBlock
deriving DecidableEq, Repr

/-- Go `fmt.Sprintf("%v", x)` applied to an interface value that is either
absent (`nil`, printing as `"<nil>"`) or a string (printing verbatim).
Used at `src/cmd/main.go:410` on `cond["message"]`. -/
def sprintV : Option String → String
  | none => "<nil>"
  | some s => s

/-- The loop of `parseKnativeStatus` (`src/cmd/main.go:401-414`): scan the
condition entries in order; skip malformed entries; at the first entry whose
`type` is the string `"Ready"`, answer from its `status` and `message`; if
no such entry exists, report `"Ready condition not found"`. -/
def scanForReady (url : String) : List CondEntry → Bool × String × String
  | [] => (false, "Ready condition not found", url)
  | .malformed :: rest => scanForReady url rest
  | .cond c :: rest =>
    if c.type = some "Ready" then
      if c.status = some "True" then (true, "", url)
      else (false, sprintV c.message, url)
    else scanForReady url rest

/-- `parseKnativeStatus` (`src/cmd/main.go:388-415`, identical in
`src/unnamed/part_000:324-351`): interpret a raw status document into
`(isReady, reason, url)`. -/
def parseKnativeStatus (obj : KObj) : Bool × String × String :=
  match obj.status with
  | none => (false, "No status", "")
  | some st =>
    let url := st.url.getD ""
    match st.conditions with
    | none => (false, "No conditions", url)
    | some conds => scanForReady url conds

/-- Whether a condition entry is a well-formed map whose `type` equals
`"Ready"` — the entries the scan loop stops at. -/
def readyTyped : CondEntry → Bool
  | .malformed => false
  | .cond c => c.type = some "Ready"

example : parseKnativeStatus ⟨none⟩ = (false, "No status", "") := by decide
example : parseKnativeStatus ⟨some ⟨some "http://myurl", none⟩⟩ =
    (false, "No conditions", "http://myurl") := by decide
example : parseKnativeStatus
    ⟨some ⟨some "http://myurl", some [.cond ⟨some "Ready", some "True", none⟩]⟩⟩ =
    (true, "", "http://myurl") := by decide
example : parseKnativeStatus
    ⟨some ⟨some "http://myurl",
      some [.cond ⟨some "Ready", some "False", some "some error"⟩]⟩⟩ =
    (false, "some error", "http://myurl") := by decide

/-! ## Status reconciler (`runObserve` decision block)

`runObserve` reads the tracked KDexFunction status (`state` and `url` via
`NestedString`, which yields `""` for absent fields), decides on a
transition, and issues at most one merge patch.  The patch body sets
`status.state` and `status.url`, and `status.detail` only when the computed
detail string is non-empty (`src/cmd/main.go:321-383`).  An issued patch is
modelled as `some patch`; `none` models the read-only pass ("No status
update needed"). -/

/-- The tracked `KDexFunction` status fields read by `runObserve`:
`status.state` and `status.url` (absent fields read as `""`).  The `detail`
field is written but never read back, so it is not part of the read state. -/
structure TrackedStatus where
  state : String
  url : String
deriving DecidableEq, Repr

/-- The merge-patch body issued by `runObserve`: `state`, `url`, and
`detail` only when non-empty (`src/cmd/main.go:358-367`). -/
structure StatusPatch where
  state : String
  url : String
  detail : Option String
deriving DecidableEq, Repr

/-- The decision block of `runObserve` in `src/cmd/main.go:321-383`.
Inputs: `basePath` (= `cfg.FunctionBasePath`), the interpreted triple
`(isReady, msg, url)` from `parseKnativeStatus`, and the tracked status.
In this variant the transition details are
`"Ready: " ++ url ++ basePath` and `"NotReady: " ++ url ++ basePath`
(lines 330 and 345); the interpreter's `msg` is not used in the patch. -/
def observeDecide (basePath : String) (isReady : Bool) (msg url : String)
    (tracked : TrackedStatus) : Option StatusPatch :=
  let currentState := tracked.state
  let currentURL := tracked.url
  let (needsUpdate, newState, newDetail) :=
    if isReady then
      let (nu, ns, nd) :=
        if currentState ≠ "Ready" then
          (true, "Ready", "Ready: " ++ url ++ basePath)
        else (false, currentState, "")
      (nu || currentURL != url, ns, nd)
    else
      if currentState = "Ready" then
        (true, "FunctionDeployed", "NotReady: " ++ url ++ basePath)
      else (false, currentState, "")
  if needsUpdate then
    some { state := newState, url := url,
           detail := if newDetail ≠ "" then some newDetail else none }
  else none

/-- The decision block of `runObserve` in `src/unnamed/part_000:257-319`
(the variant without a base path).  Transition details are
`"Ready: " ++ url` (line 266) and `"NotReady: " ++ msg` (line 281). -/
def observeDecideV0 (isReady : Bool) (msg url : String)
    (tracked : TrackedStatus) : Option StatusPatch :=
  let currentState := tracked.state
  let currentURL := tracked.url
  let (needsUpdate, newState, newDetail) :=
    if isReady then
      let (nu, ns, nd) :=
        if currentState ≠ "Ready" then
          (true, "Ready", "Ready: " ++ url)
        else (false, currentState, "")
      (nu || currentURL != url, ns, nd)
    else
      if currentState = "Ready" then
        (true, "FunctionDeployed", "NotReady: " ++ msg)
      else (false, currentState, "")
  if needsUpdate then
    some { state := newState, url := url,
           detail := if newDetail ≠ "" then some newDetail else none }
  else none

/-- One Observe pass over a live Knative Service object (`src/cmd/main.go`):
interpret the live status, then run the reconciler decision. -/
def observeStep (basePath : String) (obj : KObj) (tracked : TrackedStatus) :
    Option StatusPatch :=
  let r := parseKnativeStatus obj
  observeDecide basePath r.1 r.2.1 r.2.2 tracked

/-- One Observe pass in the `part_000` variant. -/
def observeStepV0 (obj : KObj) (tracked : TrackedStatus) :
    Option StatusPatch :=
  let r := parseKnativeStatus obj
  observeDecideV0 r.1 r.2.1 r.2.2 tracked

/-- Effect of the issued merge patch on the fields of the tracked status
that the next Observe pass reads: `status.state := patch.state`,
`status.url := patch.url` (`src/cmd/main.go:359-364`). -/
def applyPatch (_tracked : TrackedStatus) (p : StatusPatch) : TrackedStatus :=
  { state := p.state, url := p.url }

/-! ## Readiness poller (`waitForReady`)

`waitForReady` (`src/cmd/main.go:417-448`) ticks every 2 s and gives up
after 5 minutes.  An execution with an uncancelled context is determined by
the sequence of `Get` outcomes observed at the ticks that fire before the
timeout channel does; the list below is that sequence, and reaching its end
means the timeout fires at the next select. -/

/-- Outcome of one `client.Get` call inside the poll loop: not-found error,
any other error, or a successfully read object. -/
inductive ReadResult where
  | notFound
  | otherError (e : String)
  | ok (obj : KObj)
deriving DecidableEq, Repr

/-- Result of `waitForReady`: timeout failure, a propagated non-not-found
read error, or the service URL on readiness.  There is no not-found
outcome: not-found never escapes the loop. -/
inductive WaitOutcome where
  | timeout
  | readError (e : String)
  | success (url : String)
deriving DecidableEq, Repr

/-- The poll loop of `waitForReady` (`src/cmd/main.go:422-447`), over the
sequence of reads performed before the timeout elapses: a not-found read
`continue`s, any other read error returns immediately, a readable object is
interpreted and returns its URL when ready, otherwise polling continues;
the timeout fires once the reads are exhausted. -/
def waitForReady : List ReadResult → WaitOutcome
  | [] => .timeout
  | .notFound :: rest => waitForReady rest
  | .otherError e :: _ => .readError e
  | .ok obj :: rest =>
    let (isReady, _, url) := parseKnativeStatus obj
    if isReady then .success url else waitForReady rest

example : waitForReady [.notFound, .notFound] = .timeout := by decide
example : waitForReady [.notFound, .otherError "boom"] = .readError "boom" := by
  decide

/-! ## Configuration loading (`LoadEnv`, `src/cmd/main.go:34-100`) and the
subcommand default (`main`, `src/cmd/main.go:102-106`)

The environment is modelled as a total function from variable names to
values, with `""` for unset variables (Go `os.Getenv`), and the process
argument vector (`os.Args`, whose head is the program name) as a list. -/

/-- `EnvConfig` (`src/cmd/main.go:34-57`): all fields are strings read from
the environment. -/
structure EnvConfig where
  Audience : String
  ForwardedEnvVars : String
  FunctionBasePath : String
  FunctionGeneration : String
  FunctionHost : String
  FunctionImage : String
  FunctionName : String
  FunctionNamespace : String
  Issuer : String
  JWKSURL : String
  ScalingActivationScale : String
  ScalingInitialScale : String
  ScalingMaxScale : String
  ScalingMetric : String
  ScalingMinScale : String
  ScalingPanicThresholdPercentage : String
  ScalingPanicWindowPercentage : String
  ScalingScaleDownDelay : String
  ScalingScaleToZeroPodRetentionPeriod : String
  ScalingStableWindow : String
  ScalingTarget : String
  ScalingTargetUtilizationPercentage : String
deriving DecidableEq, Repr

/-- `LoadEnv` (`src/cmd/main.go:59-100`): read every variable, then require
`FUNCTION_NAME` and `FUNCTION_NAMESPACE`; require `FUNCTION_IMAGE` only
when `len(os.Args) > 1 && os.Args[1] == "deploy"` (line 95). -/
def LoadEnv (env : String → String) (args : List String) :
    Except String EnvConfig :=
  let cfg : EnvConfig := {
    Audience := env "AUDIENCE"
    ForwardedEnvVars := env "FORWARDED_ENV_VARS"
    FunctionBasePath := env "FUNCTION_BASEPATH"
    FunctionGeneration := env "FUNCTION_GENERATION"
    FunctionHost := env "FUNCTION_HOST"
    FunctionImage := env "FUNCTION_IMAGE"
    FunctionName := env "FUNCTION_NAME"
    FunctionNamespace := env "FUNCTION_NAMESPACE"
    Issuer := env "ISSUER"
    JWKSURL := env "JWKS_URL"
    ScalingActivationScale := env "SCALING_ACTIVATION_SCALE"
    ScalingInitialScale := env "SCALING_INITIAL_SCALE"
    ScalingMaxScale := env "SCALING_MAX_SCALE"
    ScalingMetric := env "SCALING_METRIC"
    ScalingMinScale := env "SCALING_MIN_SCALE"
    ScalingPanicThresholdPercentage := env "SCALING_PANIC_THRESHOLD_PERCENTAGE"
    ScalingPanicWindowPercentage := env "SCALING_PANIC_WINDOW_PERCENTAGE"
    ScalingScaleDownDelay := env "SCALING_SCALE_DOWN_DELAY"
    ScalingScaleToZeroPodRetentionPeriod :=
      env "SCALING_SCALE_TO_ZERO_POD_RETENTION_PERIOD"
    ScalingStableWindow := env "SCALING_STABLE_WINDOW"
    ScalingTarget := env "SCALING_TARGET"
    ScalingTargetUtilizationPercentage :=
      env "SCALING_TARGET_UTILIZATION_PERCENTAGE" }
  if cfg.FunctionName = "" then .error "FUNCTION_NAME is required"
  else if cfg.FunctionNamespace = "" then .error "FUNCTION_NAMESPACE is required"
  else if cfg.FunctionImage = "" ∧ 1 < args.length ∧ args.getD 1 "" = "deploy"
    then .error "FUNCTION_IMAGE is required for deploy"
  else .ok cfg

/-- The subcommand selection in `main` (`src/cmd/main.go:103-106`):
`"deploy"` by default, `os.Args[1]` when an argument is given. -/
def mainCmd (args : List String) : String :=
  if 1 < args.length then args.getD 1 "" else "deploy"

/-! ## Scaling annotations (`runDeploy`)

`src/cmd/main.go:201-240` builds the annotation map of the desired Service
document from the eleven scaling knobs: each knob contributes its key only
when its value is non-empty, with the value passed through unchanged.  A Go
map with distinct keys is modelled as the association list produced by the
same if-chain, in source order. -/

/-- The annotation map assembled at `src/cmd/main.go:201-240` and attached
to the Service via `SetAnnotations` (line 240). -/
def buildAnnotations (cfg : EnvConfig) : List (String × String) :=
  (if cfg.ScalingActivationScale ≠ "" then
    [("autoscaling.knative.dev/activation-scale", cfg.ScalingActivationScale)]
   else []) ++
  (if cfg.ScalingInitialScale ≠ "" then
    [("autoscaling.knative.dev/initial-scale", cfg.ScalingInitialScale)]
   else []) ++
  (if cfg.ScalingMaxScale ≠ "" then
    [("autoscaling.knative.dev/max-scale", cfg.ScalingMaxScale)]
   else []) ++
  (if cfg.ScalingMetric ≠ "" then
    [("autoscaling.knative.dev/metric", cfg.ScalingMetric)]
   else []) ++
  (if cfg.ScalingMinScale ≠ "" then
    [("autoscaling.knative.dev/min-scale", cfg.ScalingMinScale)]
   else []) ++
  (if cfg.ScalingPanicThresholdPercentage ≠ "" then
    [("autoscaling.knative.dev/panic-threshold-percentage",
      cfg.ScalingPanicThresholdPercentage)]
   else []) ++
  (if cfg.ScalingPanicWindowPercentage ≠ "" then
    [("autoscaling.knative.dev/panic-window-percentage",
      cfg.ScalingPanicWindowPercentage)]
   else []) ++
  (if cfg.ScalingScaleDownDelay ≠ "" then
    [("autoscaling.knative.dev/scale-down-delay", cfg.ScalingScaleDownDelay)]
   else []) ++
  (if cfg.ScalingScaleToZeroPodRetentionPeriod ≠ "" then
    [("autoscaling.knative.dev/scale-to-zero-pod-retention-period",
      cfg.ScalingScaleToZeroPodRetentionPeriod)]
   else []) ++
  (if cfg.ScalingTarget ≠ "" then
    [("autoscaling.knative.dev/target", cfg.ScalingTarget)]
   else []) ++
  (if cfg.ScalingTargetUtilizationPercentage ≠ "" then
    [("autoscaling.knative.dev/target-utilization-percentage",
      cfg.ScalingTargetUtilizationPercentage)]
   else []) ++
  (if cfg.ScalingStableWindow ≠ "" then
    [("autoscaling.knative.dev/window", cfg.ScalingStableWindow)]
   else [])

/-- The template metadata annotation map of the desired Service document in
the `part_000` variant (`src/unnamed/part_000:157-159`): hard-coded to
`autoscaling.knative.dev/minScale = "0"` ("Default to scale to zero"),
independent of any configuration — that variant's `EnvConfig`
(`src/unnamed/part_000:34-44`) has no scaling fields at all. -/
def templateAnnotationsV0 : List (String × String) :=
  [("autoscaling.knative.dev/minScale", "0")]

/-- An all-empty environment configuration: every variable unset. -/
def emptyEnvConfig : EnvConfig :=
  { Audience := "", ForwardedEnvVars := "", FunctionBasePath := ""
    FunctionGeneration := "", FunctionHost := "", FunctionImage := ""
    FunctionName := "", FunctionNamespace := "", Issuer := "", JWKSURL := ""
    ScalingActivationScale := "", ScalingInitialScale := ""
    ScalingMaxScale := "", ScalingMetric := "", ScalingMinScale := ""
    ScalingPanicThresholdPercentage := "", ScalingPanicWindowPercentage := ""
    ScalingScaleDownDelay := "", ScalingScaleToZeroPodRetentionPeriod := ""
    ScalingStableWindow := "", ScalingTarget := ""
    ScalingTargetUtilizationPercentage := "" }

/-- A concrete process environment: only the two identity variables set,
`FUNCTION_IMAGE` (and everything else) unset. -/
def envNameNamespaceOnly : String → String := fun k =>
  if k = "FUNCTION_NAME" then "myfunc"
  else if k = "FUNCTION_NAMESPACE" then "myns"
  else ""

example : buildAnnotations emptyEnvConfig = [] := by decide
example : buildAnnotations
    { emptyEnvConfig with ScalingMinScale := "2", ScalingMaxScale := "5" } =
    [("autoscaling.knative.dev/max-scale", "5"),
     ("autoscaling.knative.dev/min-scale", "2")] := by decide

/-! ## Helper lemmas -/

theorem data_append (a b : String) : (a ++ b).data = a.data ++ b.data := rfl

theorem append_ne_empty_of_left (a b : String) (h : a.data ≠ []) :
    a ++ b ≠ "" := by
  intro he
  have hd : a.data ++ b.data = ([] : List Char) := by
    rw [← data_append, he]
  exact h (List.append_eq_nil.mp hd).1

theorem append3_ne_empty (a b c : String) (h : a.data ≠ []) :
    a ++ b ++ c ≠ "" := by
  apply append_ne_empty_of_left
  rw [data_append]
  intro hd
  exact h (List.append_eq_nil.mp hd).1

/-- Skipping a run of condition entries none of which is a well-formed
`Ready`-typed map leaves the scan's answer unchanged. -/
theorem scanForReady_append (url : String) (pre l : List CondEntry)
    (h : ∀ e ∈ pre, readyTyped e = false) :
    scanForReady url (pre ++ l) = scanForReady url l := by
  induction pre with
  | nil => rfl
  | cons e rest ih =>
    have htail : ∀ x ∈ rest, readyTyped x = false :=
      fun x hx => h x (List.mem_cons_of_mem _ hx)
    cases e with
    | malformed =>
      simpa [scanForReady] using ih htail
    | cond c =>
      have hc : ¬ c.type = some "Ready" := by
        simpa [readyTyped] using h (.cond c) (List.mem_cons_self _ _)
      simpa [scanForReady, hc] using ih htail

/-- Degrade case of the `src/cmd/main.go` reconciler: not ready while the
tracked state is `"Ready"` issues the `FunctionDeployed` patch with detail
built from the live url and the base path (line 345). -/
theorem observeDecide_degrade (basePath msg url : String)
    (t : TrackedStatus) (h : t.state = "Ready") :
    observeDecide basePath false msg url t =
      some { state := "FunctionDeployed", url := url,
             detail := some ("NotReady: " ++ url ++ basePath) } := by
  have hne := append3_ne_empty "NotReady: " url basePath (by decide)
  simp [observeDecide, h, hne]

/-- Degrade case of the `part_000` reconciler: the detail is built from the
interpreter's message (`src/unnamed/part_000:281`). -/
theorem observeDecideV0_degrade (msg url : String)
    (t : TrackedStatus) (h : t.state = "Ready") :
    observeDecideV0 false msg url t =
      some { state := "FunctionDeployed", url := url,
             detail := some ("NotReady: " ++ msg) } := by
  have hne := append_ne_empty_of_left "NotReady: " msg (by decide)
  simp [observeDecideV0, h, hne]

/-- Ready-transition case of the `src/cmd/main.go` reconciler
(lines 328-332). -/
theorem observeDecide_ready (basePath msg url : String)
    (t : TrackedStatus) (h : t.state ≠ "Ready") :
    observeDecide basePath true msg url t =
      some { state := "Ready", url := url,
             detail := some ("Ready: " ++ url ++ basePath) } := by
  have hne := append3_ne_empty "Ready: " url basePath (by decide)
  simp [observeDecide, h, hne]

/-- Ready-transition case of the `part_000` reconciler (lines 264-268). -/
theorem observeDecideV0_ready (msg url : String)
    (t : TrackedStatus) (h : t.state ≠ "Ready") :
    observeDecideV0 true msg url t =
      some { state := "Ready", url := url,
             detail := some ("Ready: " ++ url) } := by
  have hne := append_ne_empty_of_left "Ready: " url (by decide)
  simp [observeDecideV0, h, hne]

/-- URL-drift case of the `src/cmd/main.go` reconciler: already `"Ready"`
but the tracked url differs from the live one (lines 333-335): patch with
unchanged state, the live url, and no detail. -/
theorem observeDecide_drift (basePath msg url : String)
    (t : TrackedStatus) (hs : t.state = "Ready") (hu : t.url ≠ url) :
    observeDecide basePath true msg url t =
      some { state := "Ready", url := url, detail := none } := by
  simp [observeDecide, hs, hu]

/-- URL-drift case of the `part_000` reconciler. -/
theorem observeDecideV0_drift (msg url : String)
    (t : TrackedStatus) (hs : t.state = "Ready") (hu : t.url ≠ url) :
    observeDecideV0 true msg url t =
      some { state := "Ready", url := url, detail := none } := by
  simp [observeDecideV0, hs, hu]

/-- No-flap case of the `src/cmd/main.go` reconciler: not ready while the
tracked state is anything but `"Ready"` issues no patch (lines 336-348
fall through with `needsUpdate == false`). -/
theorem observeDecide_noflap (basePath msg url : String)
    (t : TrackedStatus) (h : t.state ≠ "Ready") :
    observeDecide basePath false msg url t = none := by
  simp [observeDecide, h]

/-- No-flap case of the `part_000` reconciler. -/
theorem observeDecideV0_noflap (msg url : String)
    (t : TrackedStatus) (h : t.state ≠ "Ready") :
    observeDecideV0 false msg url t = none := by
  simp [observeDecideV0, h]

/-- Steady case: ready, already `"Ready"`, same url — no patch. -/
theorem observeDecide_steady (basePath msg url : String)
    (t : TrackedStatus) (hs : t.state = "Ready") (hu : t.url = url) :
    observeDecide basePath true msg url t = none := by
  simp [observeDecide, hs, hu]

/-- Steady case of the `part_000` reconciler. -/
theorem observeDecideV0_steady (msg url : String)
    (t : TrackedStatus) (hs : t.state = "Ready") (hu : t.url = url) :
    observeDecideV0 true msg url t = none := by
  simp [observeDecideV0, hs, hu]

/-- Every issued patch carries the live url, and its state is `"Ready"`
exactly on ready observations and `"FunctionDeployed"` otherwise. -/
theorem observeDecide_some_shape (basePath : String) (isReady : Bool)
    (msg url : String) (t : TrackedStatus) (p : StatusPatch)
    (h : observeDecide basePath isReady msg url t = some p) :
    p.url = url ∧
      p.state = (if isReady then "Ready" else "FunctionDeployed") := by
  cases isReady with
  | false =>
    by_cases hs : t.state = "Ready"
    · rw [observeDecide_degrade basePath msg url t hs] at h
      cases h
      simp
    · rw [observeDecide_noflap basePath msg url t hs] at h
      cases h
  | true =>
    by_cases hs : t.state = "Ready"
    · by_cases hu : t.url = url
      · rw [observeDecide_steady basePath msg url t hs hu] at h
        cases h
      · rw [observeDecide_drift basePath msg url t hs hu] at h
        cases h
        simp
    · rw [observeDecide_ready basePath msg url t hs] at h
      cases h
      simp

/-- Membership in a conditional singleton list. -/
theorem mem_ite_singleton {α : Type} (c : Prop) [Decidable c] (x y : α) :
    (x ∈ if c then [y] else []) ↔ c ∧ x = y := by
  split <;> simp_all

/-- `part_000` version of `observeDecide_some_shape`. -/
theorem observeDecideV0_some_shape (isReady : Bool)
    (msg url : String) (t : TrackedStatus) (p : StatusPatch)
    (h : observeDecideV0 isReady msg url t = some p) :
    p.url = url ∧
      p.state = (if isReady then "Ready" else "FunctionDeployed") := by
  cases isReady with
  | false =>
    by_cases hs : t.state = "Ready"
    · rw [observeDecideV0_degrade msg url t hs] at h
      cases h
      simp
    · rw [observeDecideV0_noflap msg url t hs] at h
      cases h
  | true =>
    by_cases hs : t.state = "Ready"
    · by_cases hu : t.url = url
      · rw [observeDecideV0_steady msg url t hs hu] at h
        cases h
      · rw [observeDecideV0_drift msg url t hs hu] at h
        cases h
        simp
    · rw [observeDecideV0_ready msg url t hs] at h
      cases h
      simp

/-! ## Claims -/

/-- C1 (amended): for every status document whose FIRST `Ready`-typed
condition entry has status `"True"`, `parseKnativeStatus` returns
`(true, "", url)`, regardless of the other (malformed or non-`Ready`-typed)
entries around it.  The scan stops at the first `Ready`-typed entry, so a
preceding non-`"True"` `Ready` entry changes the answer (see
`C1_counterexample`). -/
theorem C1_first_ready_true (url : Option String) (pre : List CondEntry)
    (c : Condition) (rest : List CondEntry)
    (hpre : ∀ e ∈ pre, readyTyped e = false)
    (hty : c.type = some "Ready") (hst : c.status = some "True") :
    parseKnativeStatus ⟨some ⟨url, some (pre ++ .cond c :: rest)⟩⟩ =
      (true, "", url.getD "") := by
  simp [parseKnativeStatus, scanForReady_append _ _ _ hpre, scanForReady,
    hty, hst]

/-- C1 counterexample: a conditions list that does contain a
`Ready`/`"True"` entry, preceded by a `Ready`/`"False"` entry, is
interpreted as not ready: the claim's "regardless of the position of that
entry" fails on the code's first-match scan. -/
theorem C1_counterexample :
    (CondEntry.cond ⟨some "Ready", some "True", none⟩) ∈
      ([.cond ⟨some "Ready", some "False", some "boom"⟩,
        .cond ⟨some "Ready", some "True", none⟩] : List CondEntry) ∧
    parseKnativeStatus ⟨some ⟨some "u",
      some [.cond ⟨some "Ready", some "False", some "boom"⟩,
            .cond ⟨some "Ready", some "True", none⟩]⟩⟩ =
      (false, "boom", "u") ∧
    ((false, "boom", "u") : Bool × String × String) ≠ (true, "", "u") := by
  exact ⟨by decide, by decide, by decide⟩

/-- Witness for `C1_first_ready_true` at a concrete document. -/
theorem C1_witness :
    parseKnativeStatus ⟨some ⟨some "u",
      some [.malformed, .cond ⟨some "Other", some "False", none⟩,
            .cond ⟨some "Ready", some "True", none⟩]⟩⟩ = (true, "", "u") :=
  C1_first_ready_true (some "u")
    [.malformed, .cond ⟨some "Other", some "False", none⟩]
    ⟨some "Ready", some "True", none⟩ [] (by decide) (by decide) (by decide)

/-- C2 (amended): when the interpreted status is not ready and the tracked
state is `"Ready"`, both reconciler variants decide `needsUpdate = true`
with `newState = "FunctionDeployed"` and issue exactly one patch
(modelled as `some patch`); the detail is `"NotReady: " ++ reason` in the
`part_000` variant, but `"NotReady: " ++ url ++ basePath` — not the
interpreter's reason — in the `src/cmd/main.go` variant. -/
theorem C2_degrade_transition (basePath msg url : String)
    (t : TrackedStatus) (h : t.state = "Ready") :
    observeDecide basePath false msg url t =
      some { state := "FunctionDeployed", url := url,
             detail := some ("NotReady: " ++ url ++ basePath) } ∧
    observeDecideV0 false msg url t =
      some { state := "FunctionDeployed", url := url,
             detail := some ("NotReady: " ++ msg) } :=
  ⟨observeDecide_degrade basePath msg url t h,
   observeDecideV0_degrade msg url t h⟩

/-- C2 counterexample: in `src/cmd/main.go`, with reason `"boom"` and live
url `"http://u"`, the degrade patch's detail is `"NotReady: http://u"`,
not `"NotReady: " ++ "boom"` as the claim states. -/
theorem C2_counterexample :
    observeDecide "" false "boom" "http://u" ⟨"Ready", "http://u"⟩ =
      some { state := "FunctionDeployed", url := "http://u",
             detail := some "NotReady: http://u" } ∧
    ("NotReady: http://u" : String) ≠ "NotReady: " ++ "boom" := by
  exact ⟨by decide, by decide⟩

/-- Witness for `C2_degrade_transition` at a concrete input. -/
theorem C2_witness :
    observeDecide "/bp" false "boom" "http://u" ⟨"Ready", "old"⟩ =
      some { state := "FunctionDeployed", url := "http://u",
             detail := some ("NotReady: " ++ "http://u" ++ "/bp") } ∧
    observeDecideV0 false "boom" "http://u" ⟨"Ready", "old"⟩ =
      some { state := "FunctionDeployed", url := "http://u",
             detail := some ("NotReady: " ++ "boom") } :=
  C2_degrade_transition "/bp" "boom" "http://u" ⟨"Ready", "old"⟩ rfl

/-- C3 (amended): when the interpreted status is ready and the tracked
state is not `"Ready"`, both variants decide `needsUpdate = true` with
`newState = "Ready"` and patch url equal to the live url; the detail is
`"Ready: " ++ url ++ basePath` in `src/cmd/main.go` (so equal to
`"Ready: " ++ url` only when the base path is empty) and `"Ready: " ++ url`
in `part_000`.  When the state is already `"Ready"` but the tracked url
differs from the live one, both variants patch the live url with no detail.
Scenario C (tracked state unset, live url `"http://x"`, empty base path)
yields exactly `newState = "Ready"`, `detail = "Ready: http://x"`,
`url = "http://x"`. -/
theorem C3_ready_transition :
    (∀ (basePath msg url : String) (t : TrackedStatus), t.state ≠ "Ready" →
       observeDecide basePath true msg url t =
         some { state := "Ready", url := url,
                detail := some ("Ready: " ++ url ++ basePath) }) ∧
    (∀ (msg url : String) (t : TrackedStatus), t.state ≠ "Ready" →
       observeDecideV0 true msg url t =
         some { state := "Ready", url := url,
                detail := some ("Ready: " ++ url) }) ∧
    (∀ (basePath msg url : String) (t : TrackedStatus),
       t.state = "Ready" → t.url ≠ url →
       observeDecide basePath true msg url t =
         some { state := "Ready", url := url, detail := none }) ∧
    (∀ (msg url : String) (t : TrackedStatus),
       t.state = "Ready" → t.url ≠ url →
       observeDecideV0 true msg url t =
         some { state := "Ready", url := url, detail := none }) ∧
    observeDecide "" true "" "http://x" ⟨"", ""⟩ =
      some { state := "Ready", url := "http://x",
             detail := some "Ready: http://x" } := by
  refine ⟨fun bp msg url t h => observeDecide_ready bp msg url t h,
          fun msg url t h => observeDecideV0_ready msg url t h,
          fun bp msg url t hs hu => observeDecide_drift bp msg url t hs hu,
          fun msg url t hs hu => observeDecideV0_drift msg url t hs hu,
          by decide⟩

/-- C3 counterexample: with a non-empty base path `"/base"`, the
`src/cmd/main.go` ready-transition detail is `"Ready: http://x/base"`, not
`"Ready: " ++ endpoint` as the claim states. -/
theorem C3_counterexample :
    observeDecide "/base" true "" "http://x" ⟨"", ""⟩ =
      some { state := "Ready", url := "http://x",
             detail := some "Ready: http://x/base" } ∧
    ("Ready: http://x/base" : String) ≠ "Ready: " ++ "http://x" := by
  exact ⟨by decide, by decide⟩

/-- Witness for `C3_ready_transition` at concrete inputs. -/
theorem C3_witness :
    observeDecide "" true "m" "http://x" ⟨"", ""⟩ =
      some { state := "Ready", url := "http://x",
             detail := some ("Ready: " ++ "http://x" ++ "") } ∧
    observeDecideV0 true "m" "http://x" ⟨"FunctionDeployed", "u"⟩ =
      some { state := "Ready", url := "http://x",
             detail := some ("Ready: " ++ "http://x") } ∧
    observeDecide "/b" true "" "http://y" ⟨"Ready", "http://x"⟩ =
      some { state := "Ready", url := "http://y", detail := none } ∧
    observeDecideV0 true "" "http://y" ⟨"Ready", "http://x"⟩ =
      some { state := "Ready", url := "http://y", detail := none } :=
  ⟨C3_ready_transition.1 "" "m" "http://x" ⟨"", ""⟩ (by decide),
   C3_ready_transition.2.1 "m" "http://x" ⟨"FunctionDeployed", "u"⟩ (by decide),
   C3_ready_transition.2.2.1 "/b" "" "http://y" ⟨"Ready", "http://x"⟩ rfl
     (by decide),
   C3_ready_transition.2.2.2.1 "" "http://y" ⟨"Ready", "http://x"⟩ rfl
     (by decide)⟩

/-- C4: the reconciler is idempotent in both variants: if a pass decides
`needsUpdate = true` (issues `some p`) and the patch's `state` and `url`
are applied to the tracked status, a second pass against the same
interpreted status decides `needsUpdate = false` (no patch). -/
theorem C4_idempotent :
    (∀ (basePath : String) (isReady : Bool) (msg url : String)
       (t : TrackedStatus) (p : StatusPatch),
       observeDecide basePath isReady msg url t = some p →
       observeDecide basePath isReady msg url (applyPatch t p) = none) ∧
    (∀ (isReady : Bool) (msg url : String)
       (t : TrackedStatus) (p : StatusPatch),
       observeDecideV0 isReady msg url t = some p →
       observeDecideV0 isReady msg url (applyPatch t p) = none) := by
  constructor
  · intro bp ir msg url t p h
    obtain ⟨hu, hs⟩ := observeDecide_some_shape bp ir msg url t p h
    cases ir with
    | false =>
      simp at hs
      exact observeDecide_noflap bp msg url _ (by simp [applyPatch, hs])
    | true =>
      simp at hs
      exact observeDecide_steady bp msg url _ (by simp [applyPatch, hs])
        (by simp [applyPatch, hu])
  · intro ir msg url t p h
    obtain ⟨hu, hs⟩ := observeDecideV0_some_shape ir msg url t p h
    cases ir with
    | false =>
      simp at hs
      exact observeDecideV0_noflap msg url _ (by simp [applyPatch, hs])
    | true =>
      simp at hs
      exact observeDecideV0_steady msg url _ (by simp [applyPatch, hs])
        (by simp [applyPatch, hu])

/-- Witness for `C4_idempotent`: the ready transition from an unset state,
once applied, makes the second pass a no-op. -/
theorem C4_witness :
    observeDecide "" true "" "http://u"
      (applyPatch ⟨"", ""⟩
        ⟨"Ready", "http://u", some ("Ready: " ++ "http://u" ++ "")⟩) = none ∧
    observeDecideV0 false "b" "http://u"
      (applyPatch ⟨"Ready", "http://u"⟩
        ⟨"FunctionDeployed", "http://u", some ("NotReady: " ++ "b")⟩) = none :=
  ⟨C4_idempotent.1 "" true "" "http://u" ⟨"", ""⟩
      ⟨"Ready", "http://u", some ("Ready: " ++ "http://u" ++ "")⟩ (by decide),
   C4_idempotent.2 false "b" "http://u" ⟨"Ready", "http://u"⟩
      ⟨"FunctionDeployed", "http://u", some ("NotReady: " ++ "b")⟩ (by decide)⟩

/-- C5: no-flap invariant: when the tracked state is anything other than
`"Ready"`, a not-ready observation never issues a patch in either variant,
regardless of the reason, the live url, or url drift. -/
theorem C5_no_flap (basePath msg url : String) (t : TrackedStatus)
    (h : t.state ≠ "Ready") :
    observeDecide basePath false msg url t = none ∧
    observeDecideV0 false msg url t = none :=
  ⟨observeDecide_noflap basePath msg url t h,
   observeDecideV0_noflap msg url t h⟩

/-- Witness for `C5_no_flap`: tracked state `"FunctionDeployed"` with url
drift and a not-ready observation stays untouched. -/
theorem C5_witness :
    observeDecide "/b" false "boom" "http://new"
      ⟨"FunctionDeployed", "http://old"⟩ = none ∧
    observeDecideV0 false "boom" "http://new"
      ⟨"FunctionDeployed", "http://old"⟩ = none :=
  C5_no_flap "/b" "boom" "http://new" ⟨"FunctionDeployed", "http://old"⟩
    (by decide)

/-- C6: a poller execution whose every read fails not-found keeps polling
(each not-found tick `continue`s) and ends in the timeout failure once the
timeout elapses — never a not-found failure (no such outcome is reachable);
a read error other than not-found, here after any run of not-found ticks,
aborts immediately and is propagated. -/
theorem C6_poller_not_found :
    (∀ reads : List ReadResult, (∀ r ∈ reads, r = .notFound) →
       waitForReady reads = .timeout) ∧
    (∀ (pre : List ReadResult) (e : String) (rest : List ReadResult),
       (∀ r ∈ pre, r = .notFound) →
       waitForReady (pre ++ .otherError e :: rest) = .readError e) := by
  constructor
  · intro reads h
    induction reads with
    | nil => rfl
    | cons r rest ih =>
      have hr := h r (List.mem_cons_self _ _)
      subst hr
      simpa [waitForReady] using
        ih fun x hx => h x (List.mem_cons_of_mem _ hx)
  · intro pre e rest h
    induction pre with
    | nil => rfl
    | cons r pre' ih =>
      have hr := h r (List.mem_cons_self _ _)
      subst hr
      simpa [waitForReady] using
        ih fun x hx => h x (List.mem_cons_of_mem _ hx)

/-- Witness for `C6_poller_not_found` at concrete read sequences. -/
theorem C6_witness :
    waitForReady [.notFound, .notFound, .notFound] = .timeout ∧
    waitForReady [.notFound, .otherError "forbidden"] =
      .readError "forbidden" :=
  ⟨C6_poller_not_found.1 [.notFound, .notFound, .notFound] (by decide),
   C6_poller_not_found.2 [.notFound] "forbidden" [] (by decide)⟩

/-- C7 (amended): in `src/cmd/main.go`, a pair belongs to the assembled
annotation map exactly when it is one of the twelve scaling knobs with a
non-empty source value, the value passed through unchanged — an absent
(empty) knob is omitted entirely.  The `part_000` variant, however, always
carries the locally defaulted template entry `minScale = "0"` (see
`C7_counterexample`). -/
theorem C7_knob_annotations (cfg : EnvConfig) (k v : String) :
    (k, v) ∈ buildAnnotations cfg ↔
      (cfg.ScalingActivationScale ≠ "" ∧
        (k = "autoscaling.knative.dev/activation-scale" ∧
         v = cfg.ScalingActivationScale)) ∨
      (cfg.ScalingInitialScale ≠ "" ∧
        (k = "autoscaling.knative.dev/initial-scale" ∧
         v = cfg.ScalingInitialScale)) ∨
      (cfg.ScalingMaxScale ≠ "" ∧
        (k = "autoscaling.knative.dev/max-scale" ∧
         v = cfg.ScalingMaxScale)) ∨
      (cfg.ScalingMetric ≠ "" ∧
        (k = "autoscaling.knative.dev/metric" ∧
         v = cfg.ScalingMetric)) ∨
      (cfg.ScalingMinScale ≠ "" ∧
        (k = "autoscaling.knative.dev/min-scale" ∧
         v = cfg.ScalingMinScale)) ∨
      (cfg.ScalingPanicThresholdPercentage ≠ "" ∧
        (k = "autoscaling.knative.dev/panic-threshold-percentage" ∧
         v = cfg.ScalingPanicThresholdPercentage)) ∨
      (cfg.ScalingPanicWindowPercentage ≠ "" ∧
        (k = "autoscaling.knative.dev/panic-window-percentage" ∧
         v = cfg.ScalingPanicWindowPercentage)) ∨
      (cfg.ScalingScaleDownDelay ≠ "" ∧
        (k = "autoscaling.knative.dev/scale-down-delay" ∧
         v = cfg.ScalingScaleDownDelay)) ∨
      (cfg.ScalingScaleToZeroPodRetentionPeriod ≠ "" ∧
        (k = "autoscaling.knative.dev/scale-to-zero-pod-retention-period" ∧
         v = cfg.ScalingScaleToZeroPodRetentionPeriod)) ∨
      (cfg.ScalingTarget ≠ "" ∧
        (k = "autoscaling.knative.dev/target" ∧
         v = cfg.ScalingTarget)) ∨
      (cfg.ScalingTargetUtilizationPercentage ≠ "" ∧
        (k = "autoscaling.knative.dev/target-utilization-percentage" ∧
         v = cfg.ScalingTargetUtilizationPercentage)) ∨
      (cfg.ScalingStableWindow ≠ "" ∧
        (k = "autoscaling.knative.dev/window" ∧
         v = cfg.ScalingStableWindow)) := by
  simp only [buildAnnotations, List.mem_append, mem_ite_singleton,
    Prod.mk.injEq, or_assoc]

/-- C7 counterexample: with every knob absent, the `src/cmd/main.go` map is
empty, but the `part_000` applied document's template still carries the
locally chosen default `minScale = "0"` — a scaling annotation not backed
by any non-empty source value. -/
theorem C7_counterexample :
    buildAnnotations emptyEnvConfig = [] ∧
    ("autoscaling.knative.dev/minScale", "0") ∈ templateAnnotationsV0 := by
  exact ⟨by decide, by decide⟩

/-- C8: the code diverges from the claim: when the subcommand is omitted,
`main` defaults to `"deploy"`, yet `LoadEnv` only enforces `FUNCTION_IMAGE`
when `os.Args[1]` is literally `"deploy"` (`src/cmd/main.go:95`), so a
default-deploy invocation with `FUNCTION_IMAGE` unset loads successfully
instead of failing; the explicit `deploy` argument does fail as claimed. -/
theorem C8_default_deploy_skips_image_check :
    mainCmd ["knative-deployer"] = "deploy" ∧
    LoadEnv envNameNamespaceOnly ["knative-deployer"] =
      .ok { emptyEnvConfig with FunctionName := "myfunc",
                                FunctionNamespace := "myns" } ∧
    LoadEnv envNameNamespaceOnly ["knative-deployer", "deploy"] =
      .error "FUNCTION_IMAGE is required for deploy" := by
  exact ⟨rfl, rfl, rfl⟩

/-- C9 (implicit): on the degrade transition, the issued patch always sets
the tracked url to the currently observed live url — in both variants —
and in particular to the empty string when the live object has no status
block at all, erasing a previously recorded url. -/
theorem C9_degrade_sets_live_url (basePath : String) (obj : KObj)
    (t : TrackedStatus) (hs : t.state = "Ready")
    (hnr : (parseKnativeStatus obj).1 = false) :
    observeStep basePath obj t =
      some { state := "FunctionDeployed", url := (parseKnativeStatus obj).2.2,
             detail := some ("NotReady: " ++ (parseKnativeStatus obj).2.2
               ++ basePath) } ∧
    observeStepV0 obj t =
      some { state := "FunctionDeployed", url := (parseKnativeStatus obj).2.2,
             detail := some ("NotReady: " ++ (parseKnativeStatus obj).2.1) } ∧
    observeStep basePath ⟨none⟩ t =
      some { state := "FunctionDeployed", url := "",
             detail := some ("NotReady: " ++ "" ++ basePath) } := by
  refine ⟨?_, ?_, ?_⟩
  · show observeDecide basePath (parseKnativeStatus obj).1
      (parseKnativeStatus obj).2.1 (parseKnativeStatus obj).2.2 t = _
    rw [hnr]
    exact observeDecide_degrade basePath _ _ t hs
  · show observeDecideV0 (parseKnativeStatus obj).1
      (parseKnativeStatus obj).2.1 (parseKnativeStatus obj).2.2 t = _
    rw [hnr]
    exact observeDecideV0_degrade _ _ t hs
  · show observeDecide basePath false "No status" "" t = _
    exact observeDecide_degrade basePath "No status" "" t hs

/-- Witness for `C9_degrade_sets_live_url`: a live object with a false
`Ready` condition, and (third conjunct) one with no status block, observed
against a tracked status that recorded `"http://old"`. -/
theorem C9_witness :
    observeStep "/bp"
      ⟨some ⟨some "http://live",
        some [.cond ⟨some "Ready", some "False", some "b"⟩]⟩⟩
      ⟨"Ready", "http://old"⟩ =
      some { state := "FunctionDeployed", url := "http://live",
             detail := some ("NotReady: " ++ "http://live" ++ "/bp") } ∧
    observeStepV0
      ⟨some ⟨some "http://live",
        some [.cond ⟨some "Ready", some "False", some "b"⟩]⟩⟩
      ⟨"Ready", "http://old"⟩ =
      some { state := "FunctionDeployed", url := "http://live",
             detail := some ("NotReady: " ++ "b") } ∧
    observeStep "/bp" ⟨none⟩ ⟨"Ready", "http://old"⟩ =
      some { state := "FunctionDeployed", url := "",
             detail := some ("NotReady: " ++ "" ++ "/bp") } :=
  C9_degrade_sets_live_url "/bp"
    ⟨some ⟨some "http://live",
      some [.cond ⟨some "Ready", some "False", some "b"⟩]⟩⟩
    ⟨"Ready", "http://old"⟩ rfl (by decide)

/-- C10 (implicit): when the first `Ready`-typed condition has a status
other than `"True"` and no `message` field, the interpreter's reason is
the Go stringification of the absent field, `"<nil>"` — never the empty
string. -/
theorem C10_missing_message_prints_nil (url : Option String)
    (pre : List CondEntry) (c : Condition) (rest : List CondEntry)
    (hpre : ∀ e ∈ pre, readyTyped e = false)
    (hty : c.type = some "Ready") (hst : c.status ≠ some "True")
    (hmsg : c.message = none) :
    parseKnativeStatus ⟨some ⟨url, some (pre ++ .cond c :: rest)⟩⟩ =
      (false, "<nil>", url.getD "") ∧ ("<nil>" : String) ≠ "" := by
  refine ⟨?_, by decide⟩
  simp [parseKnativeStatus, scanForReady_append _ _ _ hpre, scanForReady,
    hty, hst, sprintV, hmsg]

/-- Witness for `C10_missing_message_prints_nil` at a concrete document:
`Ready` condition with status `"Unknown"` and no message. -/
theorem C10_witness :
    parseKnativeStatus ⟨some ⟨some "u",
      some [.malformed, .cond ⟨some "Ready", some "Unknown", none⟩]⟩⟩ =
      (false, "<nil>", "u") ∧ ("<nil>" : String) ≠ "" :=
  C10_missing_message_prints_nil (some "u") [.malformed]
    ⟨some "Ready", some "Unknown", none⟩ [] (by decide) (by decide)
    (by decide) (by decide)
